import Mathlib

/-!
Verification of the golden-output test harness (trybuild fork).

The Rust sources under `src/` are shallowly embedded here:

* `src/normalize.rs` — text normalization (`trim`, `diagnostics`, `apply`,
  `filter`, `Variations`) over lossily-decoded text, modelled as `List Char`.
* `src/run.rs` — the golden comparator (`check_output`, `make_wip`), the
  per-kind checks (`Test.check_pass`, `Test.check_output`,
  `Test.check_compile_fail`), glob expansion (`expand_globs`) and the
  orchestrator tally logic (`Runner.run`).

Platform notes: the embedding models the non-Windows build (`cfg!(windows)`
is false in `apply`).  Raw captured bytes enter the normalizer through a
lossy UTF-8 decode in the source; the embedding takes the decoded character
sequence as input, which is total, so decoding is outside the model.
File-system reads/writes are modelled by explicit values: an expectation
file is `Option Str` (absence = `none`), and writes performed by the code
are recorded in an effects record instead of mutating a disk.
-/

namespace Trybuild

/-- Text is modelled as a list of characters (the lossily decoded bytes). -/
abbrev Str := List Char

/-- Rust `char::is_whitespace` (the Unicode White_Space property). -/
def rustIsWhitespace (c : Char) : Bool :=
  c = ' ' || c = '\t' || c = '\n' || c = '\x0b' || c = '\x0c' || c = '\r' ||
  c = '\u0085' || c = '\u00A0' || c = '\u1680' ||
  ('\u2000' ≤ c && c ≤ '\u200A') ||
  c = '\u2028' || c = '\u2029' || c = '\u202F' || c = '\u205F' || c = '\u3000'

/-- Rust `str::trim_end`. -/
def trimEnd (s : Str) : Str :=
  ((s.reverse).dropWhile rustIsWhitespace).reverse

/-- Rust `str::trim_start`. -/
def trimStart (s : Str) : Str :=
  s.dropWhile rustIsWhitespace

/-- Rust `String::replace` with an empty pattern: the replacement is
inserted at every character boundary, including both ends. -/
def interleave (rep : Str) : Str → Str
  | [] => rep
  | c :: rest => rep ++ c :: interleave rep rest

/-- Fueled worker for `String::replace` with a nonempty pattern: leftmost,
non-overlapping occurrences are replaced.  Fuel is the length of the
subject, which suffices because every step consumes at least one char. -/
def replaceGo (pat rep : Str) : Nat → Str → Str
  | 0, s => s
  | fuel + 1, s =>
    match s with
    | [] => []
    | c :: rest =>
      if pat.isPrefixOf s then rep ++ replaceGo pat rep fuel (s.drop pat.length)
      else c :: replaceGo pat rep fuel rest

/-- Rust `String::replace`. -/
def replace (s pat rep : Str) : Str :=
  if pat = [] then interleave rep s else replaceGo pat rep s.length s

/-- Rust `str::contains` for a string pattern. -/
def containsSub : Str → Str → Bool
  | [], pat => pat.isEmpty
  | s@(_ :: rest), pat => pat.isPrefixOf s || containsSub rest pat

/-- Split on `'\n'`, keeping empty fragments (like Rust `str::split('\n')`). -/
def splitNl : Str → List Str
  | [] => [[]]
  | c :: rest =>
    match splitNl rest with
    | [] => [[c]]
    | h :: t => if c = '\n' then [] :: h :: t else (c :: h) :: t

/-- Drop a single trailing `'\r'`, as Rust `str::lines` does per line. -/
def stripCrSuffix (s : Str) : Str :=
  if s.getLast? = some '\r' then s.dropLast else s

/-- Rust `str::lines`: split on `'\n'`, drop a final empty fragment, strip
one trailing `'\r'` from each line. -/
def rustLines (s : Str) : List Str :=
  let parts := splitNl s
  let parts := if parts.getLast? = some [] then parts.dropLast else parts
  parts.map stripCrSuffix

/-- `normalize::trim`: lossy-decode (already done), truncate at the
`trim_end` length, then push one `'\n'` if nonempty. -/
def trim (s : Str) : Str :=
  let t := trimEnd s
  if t = [] then [] else t ++ ['\n']

/-- First index of a character, `s.len()` when absent (only used where the
source `unwrap`s an index that is known to exist). -/
def idxOfChar (c : Char) (s : Str) : Nat :=
  s.findIdx (fun d => d = c)

/-- Last index of `'/'` or `'\\'` (Rust `line.rfind(&['/', '\\'][..])`). -/
def rfindSlash (s : Str) : Option Nat :=
  match (s.reverse).findIdx? (fun d => d = '/' || d = '\\') with
  | some i => some (s.length - 1 - i)
  | none => none

def arrowMarker : Str := "--> ".data
def dirSlashTok : Str := "$DIR/".data
def dirTok : Str := "$DIR".data
def crateTok : Str := "$CRATE".data
def crlf : Str := ['\r', '\n']
def nl : Str := ['\n']
def nlnl : Str := ['\n', '\n']
def abortingPre : Str := "error: aborting due to ".data
def verboseHintLine : Str := "To learn more, run the command again with --verbose.".data
def couldNotCompilePre : Str := "error: Could not compile `".data
def trybuildTestsName : Str := "trybuild-tests".data

/-- `normalize::Normalization` (derives `PartialOrd`; `Basic` is below
`StripCouldNotCompile`). -/
inductive Normalization
  | Basic
  | StripCouldNotCompile
  deriving DecidableEq

/-- The `normalization >= StripCouldNotCompile` test from `filter`. -/
def Normalization.geStrip : Normalization → Bool
  | .Basic => false
  | .StripCouldNotCompile => true

/-- `normalize::filter`: per-line filtering / rewriting.

* A line whose trimmed start begins with `"--> "` and which contains a
  path separator is rewritten to keep only the arrow marker and the final
  path component (with `$DIR/` in front); if it has no separator the other
  checks still run.
* Lines starting with `"error: aborting due to "` are dropped.
* A line equal (exactly) to the `--verbose` hint is dropped.
* Under `StripCouldNotCompile`, lines starting with
  ``"error: Could not compile `"`` are also dropped. -/
def filter (line : Str) (normalization : Normalization) : Option Str :=
  let arrowCase : Option Str :=
    if arrowMarker.isPrefixOf (trimStart line) then
      match rfindSlash line with
      | some cutEnd =>
        let cutStart := idxOfChar '>' line + 2
        some (line.take cutStart ++ dirSlashTok ++ line.drop (cutEnd + 1))
      | none => none
    else none
  match arrowCase with
  | some rewritten => some rewritten
  | none =>
    if abortingPre.isPrefixOf line then none
    else if line = verboseHintLine then none
    else if normalization.geStrip && couldNotCompilePre.isPrefixOf line then none
    else some line

/-- One step of the accumulation loop in `normalize::apply`: filtered
lines are dropped; kept lines are right-trimmed, have the source directory
replaced by `$DIR` when present, and are appended followed by a newline
unless the accumulator already ends in a blank line. -/
def applyLine (sourceDir : Str) (normalization : Normalization)
    (acc : Str) (line : Str) : Str :=
  match filter line normalization with
  | none => acc
  | some kept =>
    let kept := trimEnd kept
    let kept :=
      if containsSub kept sourceDir then replace kept sourceDir dirTok else kept
    let acc := acc ++ kept
    if nlnl.isSuffixOf acc then acc else acc ++ nl

/-- `normalize::apply` (non-Windows branch of the `cfg!(windows)` split). -/
def apply (original : Str) (normalization : Normalization)
    (sourceDir : Str) : Str :=
  trim ((rustLines original).foldl (applyLine sourceDir normalization) [])

/-- `normalize::Variations`. -/
structure Variations where
  variations : List Str
  deriving DecidableEq

/-- `Variations::preferred`: the last (most aggressively normalized)
variation.  The source `unwrap`s; the list built by `diagnostics` always
has two elements, so the default is never used. -/
def Variations.preferred (v : Variations) : Str :=
  v.variations.getLastD []

/-- `Variations::any`. -/
def Variations.any (v : Variations) (f : Str → Bool) : Bool :=
  v.variations.any f

/-- `normalize::diagnostics`: collapse CRLF, replace the test name by
`$CRATE`, then produce the `Basic` and `StripCouldNotCompile` variations. -/
def diagnostics (output : Str) (testName : Str) (sourceDir : Str) : Variations :=
  let fromBytes := replace (replace output crlf nl) testName crateTok
  ⟨[apply fromBytes .Basic sourceDir, apply fromBytes .StripCouldNotCompile sourceDir]⟩

/-- Modelled from the spec: the update-mode configuration
(`crate::env::Update`, not under `src/`): `Wip` is the conservative
staging mode (the spec's "Stage"), `Overwrite` writes expectations
directly.  Variant names are those used by `run.rs`. -/
inductive Update
  | Wip
  | Overwrite
  deriving DecidableEq

/-- Modelled from the spec: the error taxonomy (`crate::error::Error`, not
under `src/`).  The constructors are exactly the variants `run.rs`
constructs; payloads that only carry I/O error details are dropped. -/
inductive Error
  | External (msg : Str)
  | CargoFail
  | BuildFail
  | RunFailed
  | ShouldNotHaveCompiled
  | Mismatch
  | ReadStderr
  | WriteStderr
  | Open
  deriving DecidableEq

/-- Modelled from the spec: the declared expectation kind of a test case
(`TestKind` from the crate root, not under `src/`); the three variants are
those matched in `run.rs`. -/
inductive TestKind
  | Pass
  | CompileFail
  | Output
  deriving DecidableEq

/-- A file path, modelled by what the embedded code observes of it:
`Path::to_str()` — `none` when the path is not valid UTF-8. -/
structure MPath where
  utf8 : Option Str
  deriving DecidableEq

/-- Modelled from the spec: a declared test case (`Test` from the crate
root, not under `src/`): a name, a source path and an expectation kind. -/
structure Test where
  name : Str
  path : MPath
  kind : TestKind
  deriving DecidableEq

/-- Captured output of one build or run invocation
(`std::process::Output`): exit-status success flag plus both streams. -/
structure Output where
  status : Bool
  stdout : Str
  stderr : Str
  deriving DecidableEq

instance {e a : Type} [DecidableEq e] [DecidableEq a] : DecidableEq (Except e a) :=
  fun x y =>
    match x, y with
    | .ok u, .ok v => if h : u = v then .isTrue (by rw [h]) else .isFalse (by simp [h])
    | .error u, .error v => if h : u = v then .isTrue (by rw [h]) else .isFalse (by simp [h])
    | .ok _, .error _ => .isFalse (by simp)
    | .error _, .ok _ => .isFalse (by simp)

/-- The writes a comparator call performs: `wipWrite` is the content
staged under the `wip/` staging directory by `make_wip` in `Wip` mode;
`fileWrite` is the content written over the expectation file itself
(`make_wip` in `Overwrite` mode, or the overwrite arm of `check_output`). -/
structure CheckEffects where
  wipWrite : Option Str
  fileWrite : Option Str
  deriving DecidableEq

/-- Result of one `check_output` comparator call: the `Result<bool>` value
together with the file writes performed. -/
structure CheckResult where
  verdict : Except Error Bool
  effects : CheckEffects
  deriving DecidableEq

/-- `run.rs::make_wip` (file-system placement abstracted to the effects
record: `Wip` stages the content in the staging directory, `Overwrite`
writes it to the expectation path; both return `Ok`). -/
def make_wip (update : Update) (content : Str) : CheckEffects :=
  match update with
  | .Wip => ⟨some content, none⟩
  | .Overwrite => ⟨none, some content⟩

/-- `run.rs::check_output` (the free function — the golden comparator).
`stored` is the expectation file: `none` when `path.exists()` is false,
`some raw` its raw text otherwise.  `output` is the raw captured stream.
Mirrors the source control flow: missing file with (`must_exist` or
nonempty raw output) stages/writes the preferred variation and returns
`Ok(true)`; an existing file matching **any** variation returns
`Ok(false)`; otherwise `Wip` reports a mismatch error and `Overwrite`
rewrites the file and returns `Ok(false)`. -/
def check_output (update : Update) (stored : Option Str) (mustExist : Bool)
    (output : Str) (testName sourceDir : Str) : CheckResult :=
  let content := diagnostics output testName sourceDir
  if stored.isNone && (mustExist || !output.isEmpty) then
    ⟨.ok true, make_wip update content.preferred⟩
  else
    match stored with
    | some raw =>
      let expected := replace raw crlf nl
      if content.any (fun v => expected == v) then ⟨.ok false, ⟨none, none⟩⟩
      else
        match update with
        | .Wip => ⟨.error .Mismatch, ⟨none, none⟩⟩
        | .Overwrite => ⟨.ok false, ⟨none, some content.preferred⟩⟩
    | none =>
      if output.isEmpty then ⟨.ok false, ⟨none, none⟩⟩
      else
        match update with
        | .Wip => ⟨.error .Mismatch, ⟨none, none⟩⟩
        | .Overwrite => ⟨.ok false, ⟨none, some content.preferred⟩⟩

/-- `Test::check_pass` from `run.rs`: `reported` is the combined output
handed to `message::output` (build stdout spliced in front of run
stdout); `none` when the run step was never reached.  `runResult` is the
outcome of `runner.run(self)` (`Except` for an infrastructure error). -/
def Test.check_pass (buildOutput : Output) (runResult : Except Str Output) :
    Except Error Unit × Option Output :=
  if !buildOutput.status then (.error .CargoFail, none)
  else
    match runResult with
    | .error e => (.error (.External e), none)
    | .ok out =>
      let combined : Output := ⟨out.status, buildOutput.stdout ++ out.stdout, out.stderr⟩
      (if combined.status then .ok () else .error .RunFailed, some combined)

/-- Trace of `Test::check_output` from `run.rs`: the overall verdict plus
the comparator call for each stream — `none` when that comparator call was
never made (the `?` operator returned early). -/
structure OutputTrace where
  verdict : Except Error Unit
  stderrCheck : Option CheckResult
  stdoutCheck : Option CheckResult
  deriving DecidableEq

/-- `Test::check_output` from `run.rs`: build must succeed, then the run
step; the run's stderr is compared first against the `.stderr`
expectation, then stdout against `.stdout`, each through `check_output`
with `must_exist = false`; each call is followed by `?`, so an error
return short-circuits. -/
def Test.check_output (update : Update) (storedStderr storedStdout : Option Str)
    (buildOutput : Output) (runResult : Except Str Output)
    (testName sourceDir : Str) : OutputTrace :=
  if !buildOutput.status then ⟨.error .BuildFail, none, none⟩
  else
    match runResult with
    | .error e => ⟨.error (.External e), none, none⟩
    | .ok out =>
      let r1 := Trybuild.check_output update storedStderr false out.stderr testName sourceDir
      match r1.verdict with
      | .error e => ⟨.error e, some r1, none⟩
      | .ok _ =>
        let r2 := Trybuild.check_output update storedStdout false out.stdout testName sourceDir
        match r2.verdict with
        | .error e => ⟨.error e, some r1, some r2⟩
        | .ok _ => ⟨.ok (), some r1, some r2⟩

/-- `Test::check_compile_fail` from `run.rs`: unexpected compile success
fails with `ShouldNotHaveCompiled`; otherwise the build stderr is compared
against the `.stderr` expectation; a comparator result of `Ok(true)` (a
fresh expectation was staged) downgrades captured stdout to a warning and
the case returns `Ok`.  The second component is the comparator call made
(`none` if the build unexpectedly succeeded). -/
def Test.check_compile_fail (update : Update) (storedStderr : Option Str)
    (buildOutput : Output) (testName sourceDir : Str) :
    Except Error Unit × Option CheckResult :=
  if buildOutput.status then (.error .ShouldNotHaveCompiled, none)
  else
    let r := Trybuild.check_output update storedStderr false buildOutput.stderr testName sourceDir
    match r.verdict with
    | .ok _ => (.ok (), some r)
    | .error e => (.error e, some r)

/-- The fields of `cargo::Project` the embedded `run.rs` logic reads. -/
structure Project where
  name : Str
  deriving DecidableEq

/-- Result of `Runner::run`: either a panic during one-time preparation
(`prepare_project` / `runner.prepare`), the final
`"N of M tests failed"` panic, or normal completion with the failure
tally. -/
inductive RunOutcome
  | prepareAborted (e : Error)
  | runnerPrepareAborted (msg : Str)
  | failuresAborted (failures total : Nat)
  | completed (failures : Nat)
  deriving DecidableEq

/-- Count of `Err` results among the per-case outcomes. -/
def countFailures (caseResults : List (Except Error Unit)) : Nat :=
  caseResults.countP (fun r => match r with | .error _ => true | .ok _ => false)

/-- `Runner::run` from `run.rs`, after glob expansion and filtering: each
bad test prints its error and increments the tally; a `prepare_project` or
`runner.prepare` failure panics at once; then each test's `run_one` result
(`caseResults`, one per expanded test) increments the tally on `Err`; and
the run panics at the end iff the tally is nonzero and the project is not
named `trybuild-tests`. -/
def Runner.run (badTests : List (Test × Error))
    (prepResult : Except Error Project) (runnerPrep : Except Str Unit)
    (caseResults : List (Except Error Unit)) : RunOutcome :=
  let failures0 := badTests.length
  match prepResult with
  | .error e => .prepareAborted e
  | .ok project =>
    match runnerPrep with
    | .error m => .runnerPrepareAborted m
    | .ok () =>
      let failures := failures0 + countFailures caseResults
      if 0 < failures ∧ project.name ≠ trybuildTestsName then
        .failuresAborted failures caseResults.length
      else
        .completed failures

/-- Decimal digits of a natural number (fueled, kernel-reducible). -/
def natToCharsGo : Nat → Nat → Str → Str
  | 0, _, acc => acc
  | fuel + 1, n, acc =>
    let acc := Char.ofNat (48 + n % 10) :: acc
    if n < 10 then acc else natToCharsGo fuel (n / 10) acc

def natToChars (n : Nat) : Str :=
  natToCharsGo (n + 1) n []

/-- Rust `format!("{:03}", num)`: decimal, zero-padded to width 3. -/
def zeroPad3 (n : Nat) : Str :=
  let s := natToChars n
  List.replicate (3 - s.length) '0' ++ s

/-- The name given to a glob-expanded test:
`format!("{}-{:03}", test.name, num)`. -/
def expandedName (base : Str) (num : Nat) : Str :=
  base ++ '-' :: zeroPad3 num

/-- One iteration of the `expand_globs` loop from `run.rs`.  A test whose
path is not valid UTF-8 (`to_str()` returns `None`) falls through the
`if let Some(utf8)` and contributes nothing.  `globFn` stands for the
`glob` helper (pattern → sorted path list or error). -/
def expandGlobsStep (globFn : Str → Except Error (List MPath))
    (acc : List Test × List (Test × Error)) (test : Test) :
    List Test × List (Test × Error) :=
  match test.path.utf8 with
  | none => acc
  | some utf8 =>
    if utf8.contains '*' then
      match globFn utf8 with
      | .ok paths =>
        (acc.1 ++ (paths.enum.map (fun p =>
          ⟨expandedName test.name (acc.1.length + p.1), p.2, test.kind⟩)), acc.2)
      | .error e => (acc.1, acc.2 ++ [(test, e)])
    else
      (acc.1 ++ [test], acc.2)

/-- `run.rs::expand_globs`: expand glob patterns into concrete tests
(numbered with the running length of the expanded list), collect glob
errors as bad tests, and silently skip tests whose path is not UTF-8. -/
def expand_globs (globFn : Str → Except Error (List MPath))
    (tests : List Test) : List Test × List (Test × Error) :=
  tests.foldl (expandGlobsStep globFn) ([], [])

/-! Concrete inputs used by witnesses and counterexamples. -/

/-- A generic test name for concrete runs (occurs in no concrete input). -/
def tn0 : Str := "this-test".data

/-- A generic source directory for concrete runs. -/
def sd0 : Str := "/abs/src".data

/-- A build stderr for a failed compile. -/
def c1Stderr : Str := "error[E0308]: boom\n".data

/-- A stored `.stderr` expectation that matches nothing below. -/
def c2ExpStderr : Str := "expected\n".data

/-- A successful build with no captured output. -/
def c2Build : Output := ⟨true, [], []⟩

/-- A successful run whose stderr mismatches `c2ExpStderr` and whose
stdout is nonempty with no stored expectation. -/
def c2Run : Output := ⟨true, "out\n".data, "eee\n".data⟩

/-- A raw output that is nonempty but whose every variation is empty:
exactly the `--verbose` hint line. -/
def c3Raw : Str := verboseHintLine ++ nl

/-- The `--verbose` hint with a trailing space: kept (and right-trimmed)
by a first normalization pass, dropped by a second. -/
def c4Input : Str := verboseHintLine ++ (' ' :: nl)

/-- An output whose basic variation keeps a `Could not compile` line that
the preferred variation strips. -/
def c5Out : Str := "error: Could not compile `x`.\nboom\n".data

/-- A stored expectation equal to the basic (non-preferred) variation of
`c5Out`. -/
def c5Raw : Str := "error: Could not compile `x`.\nboom\n".data

/-- An input containing both environment-dependent trailer lines. -/
def c6Input : Str :=
  "hi\n".data ++ abortingPre ++ "2 previous errors\n".data ++ verboseHintLine ++ nl

/-- A test with a well-formed UTF-8 path. -/
def tGood : Test := ⟨"a".data, ⟨some ("tests/a.rs".data)⟩, .Pass⟩

/-- A test whose path is not valid UTF-8 (`to_str()` returns `None`). -/
def tBadPath : Test := ⟨"b".data, ⟨none⟩, .CompileFail⟩

/-- A glob oracle for concrete runs. -/
def gFun : Str → Except Error (List MPath) := fun _ => .ok []

/-- An ordinary project name. -/
def proj0 : Project := ⟨"myproj-tests".data⟩

/-- The self-test project. -/
def projSelf : Project := ⟨trybuildTestsName⟩

/-! Helper lemmas. -/

theorem dropWhile_dropWhile (p : Char → Bool) (l : List Char) :
    (l.dropWhile p).dropWhile p = l.dropWhile p := by
  induction l with
  | nil => rfl
  | cons c cs ih =>
    by_cases h : p c
    · simp [List.dropWhile_cons, h, ih]
    · simp [List.dropWhile_cons, h]

theorem trimEnd_trimEnd (s : Str) : trimEnd (trimEnd s) = trimEnd s := by
  simp [trimEnd, List.reverse_reverse, dropWhile_dropWhile]

theorem trimEnd_append_nl (s : Str) : trimEnd (s ++ nl) = trimEnd s := by
  have hw : rustIsWhitespace '\n' = true := by decide
  simp [trimEnd, nl, List.reverse_append, List.dropWhile_cons, hw]

/-- Shape of every `trim` result: empty, or a right-trimmed nonempty text
followed by exactly one newline. -/
theorem trim_shape (s : Str) :
    trim s = [] ∨ (trimEnd (trim s) ≠ [] ∧ trim s = trimEnd (trim s) ++ nl) := by
  by_cases h : trimEnd s = []
  · left
    simp [trim, h]
  · right
    have h1 : trim s = trimEnd s ++ nl := by simp [trim, h, nl]
    have h2 : trimEnd (trim s) = trimEnd s := by
      rw [h1, trimEnd_append_nl, trimEnd_trimEnd]
    rw [h2, h1]
    exact ⟨h, rfl⟩

theorem replace_nil (pat rep : Str) (h : pat ≠ []) : replace [] pat rep = [] := by
  simp [replace, h, replaceGo]

theorem isPrefixOf_self_append (l r : List Char) : l.isPrefixOf (l ++ r) = true := by
  induction l with
  | nil => simp
  | cons c cs ih => simp [List.isPrefixOf_cons₂, ih]

/-! Claim theorems. -/

/-- C6 counterexample: the claim says an input containing the
"aborting due to N errors" and "--verbose" trailer lines keeps them in
the basic (first) variation.  In the code both trailers are dropped by
`filter` at every normalization level: for `c6Input`, which contains
both trailer lines, the basic variation is just `"hi\n"` and contains
neither of them. -/
theorem basic_variation_drops_trailers_concrete :
    containsSub c6Input abortingPre = true ∧
    containsSub c6Input verboseHintLine = true ∧
    (diagnostics c6Input tn0 sd0).variations.headD [] = "hi\n".data ∧
    containsSub ((diagnostics c6Input tn0 sd0).variations.headD []) abortingPre = false ∧
    containsSub ((diagnostics c6Input tn0 sd0).variations.headD []) verboseHintLine = false := by
  decide

/-- C6 (amended): `filter` drops the "error: aborting due to " summary
line and the `--verbose` hint line in **every** variation (basic
included); only ``"error: Could not compile `"`` lines are dropped
exclusively at the `StripCouldNotCompile` (preferred) level: the basic
variation keeps them. -/
theorem trailer_drop_in_all_variations :
    (∀ (rest : Str) (n : Normalization), filter (abortingPre ++ rest) n = none) ∧
    (∀ n : Normalization, filter verboseHintLine n = none) ∧
    (∀ rest : Str,
      filter (couldNotCompilePre ++ rest) .Basic = some (couldNotCompilePre ++ rest) ∧
      filter (couldNotCompilePre ++ rest) .StripCouldNotCompile = none) := by
  refine ⟨fun rest n => ?_, fun _ => rfl, fun rest => ?_⟩
  · have h1 : arrowMarker.isPrefixOf (trimStart (abortingPre ++ rest)) = false := rfl
    have h2 : abortingPre.isPrefixOf (abortingPre ++ rest) = true :=
      isPrefixOf_self_append _ _
    simp [filter, h1, h2]
  · have h1 : arrowMarker.isPrefixOf (trimStart (couldNotCompilePre ++ rest)) = false := rfl
    have h2 : abortingPre.isPrefixOf (couldNotCompilePre ++ rest) = false := rfl
    have h3 : couldNotCompilePre ++ rest ≠ verboseHintLine := by
      intro h
      have hh : (couldNotCompilePre ++ rest).head? = verboseHintLine.head? := by rw [h]
      rw [show (couldNotCompilePre ++ rest).head? = some 'e' from rfl] at hh
      rw [show verboseHintLine.head? = some 'T' from rfl] at hh
      exact absurd hh (by decide)
    have h4 : couldNotCompilePre.isPrefixOf (couldNotCompilePre ++ rest) = true :=
      isPrefixOf_self_append _ _
    constructor
    · simp [filter, h1, h2, h3, Normalization.geStrip]
    · simp [filter, h1, h2, h3, h4, Normalization.geStrip]

/-- C4 (code bug): normalization is not idempotent.  The `--verbose`
hint is dropped by `filter` only on exact equality, which is tested
before the per-line right-trim; so for the hint line with a trailing
space the first pass keeps it (and trims it to the exact hint), while a
second pass over the first pass's preferred output drops it. -/
theorem normalize_not_idempotent_at_hint_concrete :
    (diagnostics c4Input tn0 sd0).preferred = verboseHintLine ++ nl ∧
    (diagnostics ((diagnostics c4Input tn0 sd0).preferred) tn0 sd0).preferred = [] ∧
    (diagnostics ((diagnostics c4Input tn0 sd0).preferred) tn0 sd0).preferred ≠
      (diagnostics c4Input tn0 sd0).preferred := by
  decide

/-- C3 counterexample: the claim says that with no expectation file and
an **empty preferred variation** nothing is written, for every update
mode.  The comparator actually keys on the raw output: `c3Raw` is
nonempty raw text whose preferred variation is empty, yet `Wip` mode
stages an (empty) wip file and `Overwrite` mode writes an (empty)
expectation file. -/
theorem empty_preferred_still_writes_concrete :
    c3Raw ≠ [] ∧
    (diagnostics c3Raw tn0 sd0).preferred = [] ∧
    (check_output .Wip none false c3Raw tn0 sd0).effects.wipWrite = some [] ∧
    (check_output .Overwrite none false c3Raw tn0 sd0).effects.fileWrite = some [] := by
  decide

/-- C3 (amended): the "nothing to check, nothing written" row of the
comparator's decision table keys on the **raw** captured output being
empty, not on the preferred variation: with no expectation file and empty
raw output the verdict is `Ok` and nothing is written, for every update
mode (when the raw output is nonempty but normalizes to an empty
preferred variation, an empty file is still staged or written). -/
theorem empty_raw_output_ok_nothing_written (update : Update) (tname sdir : Str) :
    check_output update none false [] tname sdir = ⟨.ok false, ⟨none, none⟩⟩ :=
  rfl

/-- C5: tolerant match.  If the stored expectation (CRLF-collapsed)
equals **any** normalized variation of the captured output, the
comparator returns `Ok(false)` and performs no write, for every update
mode — in particular when the stored text is the basic variation and
differs from the preferred one (see the witness). -/
theorem tolerant_match_ok (update : Update) (raw : Str) (mustExist : Bool)
    (output tname sdir : Str)
    (h : (diagnostics output tname sdir).any
      (fun v => replace raw crlf nl == v) = true) :
    check_output update (some raw) mustExist output tname sdir =
      ⟨.ok false, ⟨none, none⟩⟩ := by
  simp [check_output, h]

theorem tolerant_match_ok_witness :
    ((diagnostics c5Out tn0 sd0).any (fun v => replace c5Raw crlf nl == v) = true) ∧
    replace c5Raw crlf nl ≠ (diagnostics c5Out tn0 sd0).preferred ∧
    check_output .Wip (some c5Raw) false c5Out tn0 sd0 = ⟨.ok false, ⟨none, none⟩⟩ :=
  ⟨by decide, by decide, tolerant_match_ok .Wip c5Raw false c5Out tn0 sd0 (by decide)⟩

/-- C9: every variation produced by `diagnostics` is either empty or a
right-trimmed nonempty text followed by exactly one newline (so trailing
blank lines are trimmed and a nonempty variation ends in exactly one
`'\n'`); and an originally-empty raw input normalizes to empty text in
every variation (for a test whose name is nonempty — an empty
substitution token would be inserted at every boundary by Rust
`str::replace`). -/
theorem variation_trim_shape (output nm sdir : Str) :
    (∀ v ∈ (diagnostics output nm sdir).variations,
      v = [] ∨ (trimEnd v ≠ [] ∧ v = trimEnd v ++ nl)) ∧
    (nm ≠ [] → (diagnostics [] nm sdir).variations = [[], []]) := by
  constructor
  · intro v hv
    simp only [diagnostics, List.mem_cons, List.mem_singleton, List.not_mem_nil,
      or_false] at hv
    have happ : ∀ (o : Str) (n : Normalization),
        apply o n sdir = [] ∨
          (trimEnd (apply o n sdir) ≠ [] ∧
            apply o n sdir = trimEnd (apply o n sdir) ++ nl) :=
      fun o n => trim_shape _
    rcases hv with h | h <;> rw [h]
    · exact happ _ _
    · exact happ _ _
  · intro h
    have h1 : replace [] crlf nl = [] := replace_nil _ _ (by decide)
    have h2 : replace [] nm crateTok = [] := replace_nil _ _ h
    have hA : apply [] .Basic sdir = [] := rfl
    have hB : apply [] .StripCouldNotCompile sdir = [] := rfl
    simp [diagnostics, h1, h2, hA, hB]

theorem variation_trim_shape_witness :
    (tn0 ≠ [] ∧ (diagnostics [] tn0 sd0).variations = [[], []]) ∧
    (∀ v ∈ (diagnostics ("x \n\n".data) tn0 sd0).variations,
      v = [] ∨ (trimEnd v ≠ [] ∧ v = trimEnd v ++ nl)) :=
  ⟨⟨by decide, (variation_trim_shape [] tn0 sd0).2 (by decide)⟩,
   (variation_trim_shape ("x \n\n".data) tn0 sd0).1⟩

/-- C1 counterexample: the claim says that with no expectation file,
nonempty output and `Wip` (Stage) mode the case's verdict is a failure
("Failed(Missing)").  In the code `check_output` returns `Ok(true)` after
staging, and `check_compile_fail` maps that to `Ok`: at this concrete
input the wip file is staged with the preferred text, yet the case
verdict is `Ok`, so it is not counted as a failure. -/
theorem wip_missing_expectation_verdict_concrete :
    (Test.check_compile_fail .Wip none ⟨false, [], c1Stderr⟩ tn0 sd0).1 = .ok () ∧
    ((Test.check_compile_fail .Wip none ⟨false, [], c1Stderr⟩ tn0 sd0).2.map
      (fun r => r.effects.wipWrite)) =
      some (some ((diagnostics c1Stderr tn0 sd0).preferred)) := by
  decide

/-- C1 (amended): for a `CompileFail` case whose build failed, with no
stored expectation, nonempty build stderr and `Wip` (Stage) mode, the
comparator stages the preferred variation in the staging directory and
returns `Ok(true)`; the case's verdict is `Ok` — it is reported as
work-in-progress but not counted as a failure. -/
theorem wip_missing_expectation_stages_and_passes (stdout stderr tname sdir : Str)
    (h : stderr ≠ []) :
    Test.check_compile_fail .Wip none ⟨false, stdout, stderr⟩ tname sdir =
      (.ok (), some ⟨.ok true,
        ⟨some ((diagnostics stderr tname sdir).preferred), none⟩⟩) := by
  cases stderr with
  | nil => exact absurd rfl h
  | cons c cs => simp [Test.check_compile_fail, check_output, make_wip]

theorem wip_missing_expectation_stages_and_passes_witness :
    c1Stderr ≠ [] ∧
    Test.check_compile_fail .Wip none ⟨false, [], c1Stderr⟩ tn0 sd0 =
      (.ok (), some ⟨.ok true,
        ⟨some ((diagnostics c1Stderr tn0 sd0).preferred), none⟩⟩) :=
  ⟨by decide, wip_missing_expectation_stages_and_passes [] c1Stderr tn0 sd0 (by decide)⟩

/-- C2 counterexample: the claim says both the stderr and the stdout
check are always attempted.  At this concrete input (build ok, run ok,
stored stderr mismatching in `Wip` mode, no stored stdout, nonempty
stdout) the stderr check fails with `Mismatch` and the stdout comparator
is never invoked — even though, had it run, it would have staged a wip
file for the missing stdout expectation. -/
theorem output_stderr_failure_skips_stdout_concrete :
    (Test.check_output .Wip (some c2ExpStderr) none c2Build (.ok c2Run) tn0 sd0).verdict =
      .error .Mismatch ∧
    (Test.check_output .Wip (some c2ExpStderr) none c2Build (.ok c2Run) tn0 sd0).stdoutCheck =
      none ∧
    c2Run.stdout ≠ [] ∧
    (check_output .Wip none false c2Run.stdout tn0 sd0).effects.wipWrite ≠ none := by
  decide

/-- C2 (amended): for an `Output` case with a successful build and run,
the stderr comparison runs first; if it returns an error the `?`
operator short-circuits — the case fails with that error and the stdout
comparison is never attempted; if the stderr comparison returns `Ok`,
the stdout comparison is attempted and the case passes iff it also
returns `Ok`. -/
theorem output_checks_short_circuit (update : Update) (s1 s2 : Option Str)
    (bo ro : Output) (tname sdir : Str) (hb : bo.status = true) :
    (∀ e, (check_output update s1 false ro.stderr tname sdir).verdict = .error e →
      Test.check_output update s1 s2 bo (.ok ro) tname sdir =
        ⟨.error e, some (check_output update s1 false ro.stderr tname sdir), none⟩) ∧
    (∀ b, (check_output update s1 false ro.stderr tname sdir).verdict = .ok b →
      (Test.check_output update s1 s2 bo (.ok ro) tname sdir).stderrCheck =
        some (check_output update s1 false ro.stderr tname sdir) ∧
      (Test.check_output update s1 s2 bo (.ok ro) tname sdir).stdoutCheck =
        some (check_output update s2 false ro.stdout tname sdir) ∧
      ((Test.check_output update s1 s2 bo (.ok ro) tname sdir).verdict = .ok () ↔
        ∃ b2, (check_output update s2 false ro.stdout tname sdir).verdict = .ok b2)) := by
  constructor
  · intro e he
    simp [Test.check_output, hb, he]
  · intro b hbk
    rcases h2 : (check_output update s2 false ro.stdout tname sdir).verdict with e2 | b2
    · simp [Test.check_output, hb, hbk, h2]
    · simp [Test.check_output, hb, hbk, h2]

theorem output_checks_short_circuit_witness :
    c2Build.status = true ∧
    (check_output .Wip (some c2ExpStderr) false c2Run.stderr tn0 sd0).verdict =
      .error .Mismatch ∧
    Test.check_output .Wip (some c2ExpStderr) none c2Build (.ok c2Run) tn0 sd0 =
      ⟨.error .Mismatch,
        some (check_output .Wip (some c2ExpStderr) false c2Run.stderr tn0 sd0), none⟩ :=
  ⟨by decide, by decide,
    (output_checks_short_circuit .Wip (some c2ExpStderr) none c2Build c2Run tn0 sd0
      (by decide)).1 .Mismatch (by decide)⟩

/-- C7: for a `Pass` case, a failed build yields the build-failure error
(`Error::CargoFail`, the spec's "Failed(BuildFailed)") without invoking
the run step; with a successful build and a run outcome, the reported
combined output has the build's stdout prepended to the run's stdout,
and the verdict is `Ok` iff the run exited successfully
(`Error::RunFailed` otherwise). -/
theorem check_pass_spec (bo out : Output) (r : Except Str Output) :
    (bo.status = false → Test.check_pass bo r = (.error .CargoFail, none)) ∧
    (bo.status = true → Test.check_pass bo (.ok out) =
      ((if out.status then .ok () else .error .RunFailed),
        some ⟨out.status, bo.stdout ++ out.stdout, out.stderr⟩)) := by
  constructor
  · intro h
    simp [Test.check_pass, h]
  · intro h
    simp [Test.check_pass, h]

theorem check_pass_spec_witness :
    (⟨false, [], []⟩ : Output).status = false ∧
    (⟨true, "b\n".data, []⟩ : Output).status = true ∧
    Test.check_pass ⟨false, [], []⟩ (.ok c2Run) = (.error .CargoFail, none) ∧
    Test.check_pass ⟨true, "b\n".data, []⟩ (.ok c2Run) =
      (.ok (), some ⟨true, "b\n".data ++ c2Run.stdout, c2Run.stderr⟩) :=
  ⟨rfl, rfl,
    (check_pass_spec ⟨false, [], []⟩ c2Run (.ok c2Run)).1 rfl,
    (check_pass_spec ⟨true, "b\n".data, []⟩ c2Run (.ok c2Run)).2 rfl⟩

/-- C8: a `prepare_project` error panics the run immediately (as does a
`runner.prepare` error); otherwise per-case errors and bad tests only
increment the tally, and the run panics at the end iff the tally is
nonzero and the project is not the self-test project `trybuild-tests`,
whose nonzero tallies are tolerated. -/
theorem run_tally_spec (bad : List (Test × Error)) (proj : Project)
    (rp : Except Str Unit) (results : List (Except Error Unit))
    (e : Error) (m : Str) :
    (Runner.run bad (.error e) rp results = .prepareAborted e) ∧
    (Runner.run bad (.ok proj) (.error m) results = .runnerPrepareAborted m) ∧
    (Runner.run bad (.ok proj) (.ok ()) results =
        .failuresAborted (bad.length + countFailures results) results.length ↔
      (0 < bad.length + countFailures results ∧ proj.name ≠ trybuildTestsName)) ∧
    (proj.name = trybuildTestsName →
      Runner.run bad (.ok proj) (.ok ()) results =
        .completed (bad.length + countFailures results)) := by
  refine ⟨rfl, rfl, ?_, ?_⟩
  · by_cases h : 0 < bad.length + countFailures results ∧ proj.name ≠ trybuildTestsName
    · simp [Runner.run, h]
    · simp only [Runner.run, if_neg h]
      constructor
      · intro hc
        exact absurd hc (by simp)
      · intro hc
        exact absurd hc h
  · intro h
    have hcond : ¬(0 < bad.length + countFailures results ∧
        proj.name ≠ trybuildTestsName) := by
      intro hc
      exact hc.2 h
    simp [Runner.run, hcond]
    exact fun _ => h

theorem run_tally_spec_witness :
    (0 < ([(tGood, Error.Open)] : List (Test × Error)).length + countFailures [] ∧
      proj0.name ≠ trybuildTestsName) ∧
    Runner.run [(tGood, Error.Open)] (.ok proj0) (.ok ()) [] =
      .failuresAborted 1 0 ∧
    projSelf.name = trybuildTestsName ∧
    Runner.run [(tGood, Error.Open)] (.ok projSelf) (.ok ()) [] = .completed 1 :=
  ⟨by decide,
    (run_tally_spec [(tGood, Error.Open)] proj0 (.ok ()) [] Error.Open []).2.2.1.mpr
      (by decide),
    by decide,
    (run_tally_spec [(tGood, Error.Open)] projSelf (.ok ()) [] Error.Open []).2.2.2
      (by decide)⟩

/-- C10: a declared test whose path is not valid UTF-8 is silently
dropped by `expand_globs`: removing it from the input list changes
neither the expanded test list (including the numbering of glob
expansions) nor the bad-test list, so it is never built, reported or
counted. -/
theorem expand_globs_drops_non_utf8 (globFn : Str → Except Error (List MPath))
    (xs ys : List Test) (t : Test) (h : t.path.utf8 = none) :
    expand_globs globFn (xs ++ t :: ys) = expand_globs globFn (xs ++ ys) := by
  unfold expand_globs
  rw [List.foldl_append, List.foldl_cons, List.foldl_append]
  have hstep : ∀ acc : List Test × List (Test × Error),
      expandGlobsStep globFn acc t = acc := by
    intro acc
    simp [expandGlobsStep, h]
  rw [hstep]

theorem expand_globs_drops_non_utf8_witness :
    tBadPath.path.utf8 = none ∧
    expand_globs gFun [tBadPath, tGood] = expand_globs gFun [tGood] :=
  ⟨rfl, expand_globs_drops_non_utf8 gFun [] [tGood] tBadPath rfl⟩

end Trybuild
